import Mathlib

/-!
# tuw_marker_slam: measurement adaptation and state publication

A shallow embedding of `tuw_marker_slam_node.cpp` (`SLAMNode::callbackCmd`,
`SLAMNode::callbackMarker`, `SLAMNode::publish`).

Scalars (`double` in the source) are elements of a linearly ordered field `α`
with a floor function: the definitions can be evaluated on `ℚ` and the results
hold on `ℝ` as well.  Functions of the C math library, of tf and of
tuw_geometry that the node calls are collected in `Ext`.
-/

set_option linter.unusedSectionVars false

namespace TuwMarkerSlam

/-! ## Messages and geometry -/

/-- The class `tuw::Pose2D`: a planar pose `(x, y, theta)`. -/
structure Pose2D (α : Type) where
  x : α
  y : α
  theta : α
  deriving DecidableEq

/-- The message `geometry_msgs::Point`. -/
structure Point (α : Type) where
  x : α
  y : α
  z : α
  deriving DecidableEq

/-- The message `geometry_msgs::Quaternion`. -/
structure Quaternion (α : Type) where
  x : α
  y : α
  z : α
  w : α
  deriving DecidableEq

/-- The message `geometry_msgs::Pose`. -/
structure Pose (α : Type) where
  position : Point α
  orientation : Quaternion α
  deriving DecidableEq

/-- The message `marker_msgs::Marker`: one detection of the detector. -/
structure MarkerMsg (α : Type) where
  ids : List Int
  ids_confidence : List α
  pose : Pose α
  deriving DecidableEq

/-- The message `marker_msgs::MarkerDetection`: one detection batch. -/
structure MarkerDetection (α : Type) where
  frame_id : String
  stamp : Nat
  distance_min : α
  distance_max : α
  distance_max_id : α
  view_direction : Quaternion α
  fov_horizontal : α
  markers : List (MarkerMsg α)
  deriving DecidableEq

/-- The message `geometry_msgs::Twist`, restricted to the fields the node reads. -/
structure Twist (α : Type) where
  linear_x : α
  angular_z : α
  deriving DecidableEq

/-- The class `tuw::Command`: the buffered control command `(v, w)`. -/
structure Command (α : Type) where
  v : α
  w : α
  deriving DecidableEq

/-- The struct `MeasurementMarker::Marker`: one gated measurement. -/
structure Marker (α : Type) where
  ids : List Int
  ids_confidence : List α
  length : α
  angle : α
  orientation : α
  pose : Pose2D α
  deriving DecidableEq

/-- The class `tuw::MeasurementMarker`: the buffered measurement set `zt_`.
`stamp` is a boost `ptime`; `none` stands for `not_a_date_time`. -/
structure MeasurementMarker (α : Type) where
  pose2d : Pose2D α
  range_min : α
  range_max : α
  range_max_id : α
  angle_min : α
  angle_max : α
  stamp : Option Nat
  markers : List (Marker α)
  deriving DecidableEq

/-- Messages the node writes with `ROS_ERROR`. -/
inductive RosError where
  | lookupTransformFailed
  | viewDirection
  | subtractFailed
  deriving DecidableEq

/-- Library functions and constants the node calls: `M_PI`, `sqrt`, `atan2`,
`sin`, `cos` of the C math library, `tf::Matrix3x3::getRPY` (returning roll,
pitch, yaw), and `oob`, the value an out-of-range `yt_[0]` reads. -/
structure Ext (α : Type) where
  pi : α
  sqrt : α → α
  atan2 : α → α → α
  sin : α → α
  cos : α → α
  getRPY : Quaternion α → α × α × α
  oob : Pose2D α

/-- What `tf::TransformListener::lookupTransform` gives `callbackMarker`: the
origin `x`, origin `y` and the yaw of the rotation. -/
structure SensorTransform (α : Type) where
  originX : α
  originY : α
  yaw : α
  deriving DecidableEq

section Adapter

variable {α : Type} [LinearOrderedField α] [FloorRing α]

/-- Modelled from the spec: `angle_difference` is declared in tuw_geometry, not
in this node's source file.  It returns the signed minimal angular difference
`a - b` mapped into `(-π, π]`, with `pi` standing for `M_PI`. -/
def angle_difference (pi a b : α) : α :=
  (a - b) - 2 * pi * (⌈(a - b - pi) / (2 * pi)⌉ : ℤ)

/-- The `xzplane_` branch of `callbackMarker` (lines 257-265): the robot-frame
pose `(x, y, theta)` from the position `v` and the `pitch` and `yaw` of the
orientation of a detection; `pi` stands for `M_PI`. -/
def toRobotFrame (pi : α) (xzplane : Bool) (v : Point α) (pitch yaw : α) : Pose2D α :=
  if xzplane then
    { x := v.z, y := -v.x, theta := angle_difference pi pi pitch }
  else
    { x := v.x, y := v.y, theta := yaw }

/-- The robot-frame pose of a detection message (lines 253-265): position and
`getRPY` of the orientation, then the `xzplane_` branch. -/
def detectionPose (E : Ext α) (xzplane : Bool) (m : MarkerMsg α) : Pose2D α :=
  let rpy := E.getRPY m.pose.orientation
  toRobotFrame E.pi xzplane m.pose.position rpy.2.1 rpy.2.2

/-- The measurement `zt_i` built from a detection (lines 267-268, 274-280). -/
def toMeasurement (E : Ext α) (xzplane : Bool) (m : MarkerMsg α) : Marker α :=
  let p := detectionPose E xzplane m
  let length := E.sqrt (p.x * p.x + p.y * p.y)
  let angle := E.atan2 p.y p.x
  { ids := m.ids, ids_confidence := m.ids_confidence, length := length, angle := angle,
    orientation := p.theta, pose := { x := p.x, y := p.y, theta := p.theta } }

/-- The method `push_back` of the measurement set. -/
def MeasurementMarker.push_back (zt : MeasurementMarker α) (z : Marker α) :
    MeasurementMarker α :=
  { zt with markers := zt.markers ++ [z] }

/-- One iteration of the loop of `callbackMarker` (lines 248-282): the detection
is skipped (`continue`) when it is outside a bound, else it is appended. -/
def markerLoopBody (E : Ext α) (xzplane : Bool) (zt : MeasurementMarker α)
    (m : MarkerMsg α) : MeasurementMarker α :=
  let z := toMeasurement E xzplane m
  if z.length < zt.range_min ∨ z.length > zt.range_max ∨
      z.angle < zt.angle_min ∨ z.angle > zt.angle_max then
    zt
  else
    zt.push_back z

/-- The sensor pose `callbackMarker` stores (lines 223-233); `none` is a
`tf::TransformException` of `lookupTransform`. -/
def sensorPose (E : Ext α) (xzplane : Bool) (look : Option (SensorTransform α)) : Pose2D α :=
  match look with
  | some t => { x := t.originX, y := t.originY,
                theta := if xzplane then t.yaw + E.pi / 2 else t.yaw }
  | none => { x := 0.225, y := 0, theta := 0 }

/-- The test of line 235: the viewing direction is exactly `(0, 0, 0, 1)`. -/
def straightAhead (q : Quaternion α) : Bool :=
  decide (q.x = 0) && decide (q.y = 0) && decide (q.z = 0) && decide (q.w = 1)

/-- The statements of `callbackMarker` before the loop (lines 223-246). -/
def markerHeader (E : Ext α) (xzplane : Bool) (look : Option (SensorTransform α))
    (zt : MeasurementMarker α) (msg : MarkerDetection α) : MeasurementMarker α :=
  let zt1 := { zt with pose2d := sensorPose E xzplane look }
  let zt2 :=
    if straightAhead msg.view_direction then
      { zt1 with angle_min := -msg.fov_horizontal / 2, angle_max := msg.fov_horizontal / 2 }
    else zt1
  { zt2 with range_min := msg.distance_min, range_max := msg.distance_max,
             range_max_id := msg.distance_max_id, stamp := some msg.stamp, markers := [] }

/-- The errors `callbackMarker` reports, in order. -/
def markerErrors (look : Option (SensorTransform α)) (msg : MarkerDetection α) :
    List RosError :=
  (if look.isSome then [] else [RosError.lookupTransformFailed]) ++
  (if straightAhead msg.view_direction then [] else [RosError.viewDirection])

/-- The method `SLAMNode::callbackMarker`: the new value of `zt_`.  `look` is
the answer of `lookupTransform (frame_id_base_, msg.frame_id)`. -/
def callbackMarker (E : Ext α) (xzplane : Bool) (look : Option (SensorTransform α))
    (zt : MeasurementMarker α) (msg : MarkerDetection α) : MeasurementMarker α :=
  msg.markers.foldl (markerLoopBody E xzplane) (markerHeader E xzplane look zt msg)

/-- The method `SLAMNode::callbackCmd`: the new value of `ut_`. -/
def callbackCmd (_ut : Command α) (cmd : Twist α) : Command α :=
  { v := cmd.linear_x, w := cmd.angular_z }

/-- The acceptance condition of the measurement gate as the specification
writes it, for a measurement and the bounds in force. -/
def withinBounds (zt : MeasurementMarker α) (z : Marker α) : Prop :=
  zt.range_min ≤ z.length ∧ z.length ≤ zt.range_max ∧
  zt.angle_min ≤ z.angle ∧ z.angle ≤ zt.angle_max

instance (zt : MeasurementMarker α) (z : Marker α) : Decidable (withinBounds zt z) := by
  unfold withinBounds; infer_instance

end Adapter


/-! ## State publication -/

/-- A planar `tf::Transform`: the rotation matrix `[[c, -s], [s, c]]` and the
origin `(x, y)`. -/
structure Transform (α : Type) where
  c : α
  s : α
  x : α
  y : α
  deriving DecidableEq

/-- The class `tf::Stamped<tf::Pose>`. -/
structure StampedPose (α : Type) where
  data : Transform α
  stamp : Nat
  frame_id : String
  deriving DecidableEq

/-- The class `tf::StampedTransform`. -/
structure StampedTransform (α : Type) where
  data : Transform α
  stamp : Nat
  frame_id : String
  child_frame_id : String
  deriving DecidableEq

/-- The message `std_msgs::Header`; `seq` is a 32-bit unsigned counter. -/
structure Header where
  seq : Nat
  stamp : Nat
  frame_id : String
  deriving DecidableEq

/-- A 6x6 row-major covariance array of a message (`boost::array<double, 36>`). -/
abbrev Cov (α : Type) := Fin 36 → α

/-- The message `geometry_msgs::PoseWithCovarianceStamped`. -/
structure PoseWithCovarianceStamped (α : Type) where
  header : Header
  pose : Pose α
  covariance : Cov α

/-- The message `marker_msgs::MarkerWithCovariance`. -/
structure MarkerWithCovariance (α : Type) where
  marker : MarkerMsg α
  covariance : Cov α

/-- The message `marker_msgs::MarkerWithCovarianceArray`. -/
structure MarkerWithCovarianceArray (α : Type) where
  header : Header
  markers : List (MarkerWithCovariance α)

/-- The joint covariance `C_Yt_`, a `cv::Mat_<double>`: `rows` and `cols` are
non-negative values of type `int`, `entry r c` is the element at row `r`,
column `c`. -/
structure Mat (α : Type) where
  rows : Fin 2147483648
  cols : Fin 2147483648
  entry : Nat → Nat → α

/-- The members of `SLAMNode` the callbacks and `publish` use.
`time_last_update` is the estimator's `time_last_update ()`, with `none` for
`not_a_date_time`. -/
structure SLAMNode (α : Type) where
  xzplane_ : Bool
  frame_id_map_ : String
  frame_id_odom_ : String
  frame_id_base_ : String
  ut_ : Command α
  zt_ : MeasurementMarker α
  yt_ : List (Pose2D α)
  C_Yt_ : Mat α
  time_last_update : Option Nat
  xt_ : PoseWithCovarianceStamped α
  mt_ : MarkerWithCovarianceArray α

/-- What one call of `publish` does: the members `xt_`, `mt_` after the call,
the transforms given to `sendTransform`, the errors reported, the messages
given to `pub_xt_.publish` and `pub_mt_.publish`, and whether the `assert` of
line 151 failed. -/
structure PublishOutcome (α : Type) where
  xt_ : PoseWithCovarianceStamped α
  mt_ : MarkerWithCovarianceArray α
  broadcast : List (StampedTransform α)
  errors : List RosError
  pub_xt : List (PoseWithCovarianceStamped α)
  pub_mt : List (MarkerWithCovarianceArray α)
  aborted : Bool

/-- The method `resize` of `std::vector`: keep the first `n` elements, fill up
with value-initialised elements `d`. -/
def resize {β : Type} (l : List β) (n : Nat) (d : β) : List β :=
  l.take n ++ List.replicate (n - l.length) d

/-- Conversion of an unsigned value to `int32_t`. -/
def toInt32 (n : Nat) : Int :=
  ((n : Int) + 2147483648) % 4294967296 - 2147483648

section Publisher

variable {α : Type} [LinearOrderedField α] [FloorRing α]

/-- The method `tf::Transform::operator*`: composition, `a` after `b`. -/
def Transform.mul (a b : Transform α) : Transform α :=
  { c := a.c * b.c - a.s * b.s, s := a.s * b.c + a.c * b.s,
    x := a.c * b.x - a.s * b.y + a.x, y := a.s * b.x + a.c * b.y + a.y }

/-- The method `tf::Transform::inverse`: the transposed basis `inv`, and
`inv * -origin`. -/
def Transform.inverse (t : Transform α) : Transform α :=
  { c := t.c, s := -t.s,
    x := t.c * (-t.x) + t.s * (-t.y), y := (-t.s) * (-t.x) + t.c * (-t.y) }

/-- The transform `tf::Transform (tf::createQuaternionFromYaw (theta),
tf::Point (x, y, 0))` of line 140. -/
def Transform.ofYaw (E : Ext α) (theta x y : α) : Transform α :=
  { c := E.cos theta, s := E.sin theta, x := x, y := y }

/-- The function `tf::createQuaternionMsgFromYaw`: `setRPY (0, 0, yaw)`. -/
def createQuaternionMsgFromYaw (E : Ext α) (yaw : α) : Quaternion α :=
  { x := 0, y := 0, z := E.sin (yaw / 2), w := E.cos (yaw / 2) }

/-- Modelled from the spec: `tf::Transformer::transformPose` is the
frame-resolution collaborator, part of tf and not of this node.  With `B` the
transform from the frame of `p` to `target` at the stamp of `p`, the result is
`B * p`, timestamped identically, in `target`; `none` stands for a failed query
(a thrown exception). -/
def transformPose (B : Option (Transform α)) (target : String) (p : StampedPose α) :
    Option (StampedPose α) :=
  B.map fun b => { data := b.mul p.data, stamp := p.stamp, frame_id := target }

/-- The nine assignments of lines 162-171 and 191-200: the 3x3 block of `C` at
`(3 k, 3 k)` is written to the indices `{0, 1, 5} x {0, 1, 5}` of `cov`. -/
def packCovariance (cov : Cov α) (C : Mat α) (k : Nat) : Cov α :=
  let M : Nat → Nat → α := fun r c => C.entry (3 * k + r) (3 * k + c)
  let c1 := Function.update cov (6*0 + 0) (M 0 0)
  let c2 := Function.update c1 (6*0 + 1) (M 0 1)
  let c3 := Function.update c2 (6*0 + 5) (M 0 2)
  let c4 := Function.update c3 (6*1 + 0) (M 1 0)
  let c5 := Function.update c4 (6*1 + 1) (M 1 1)
  let c6 := Function.update c5 (6*1 + 5) (M 1 2)
  let c7 := Function.update c6 (6*5 + 0) (M 2 0)
  let c8 := Function.update c7 (6*5 + 1) (M 2 1)
  Function.update c8 (6*5 + 5) (M 2 2)

/-- A value-initialised `marker_msgs::MarkerWithCovariance`. -/
def MarkerWithCovariance.zero : MarkerWithCovariance α :=
  { marker := { ids := [], ids_confidence := [],
                pose := { position := ⟨0, 0, 0⟩, orientation := ⟨0, 0, 0, 0⟩ } },
    covariance := fun _ => 0 }

/-- The body of the loop of `publish` (lines 181-200) for index `i`. -/
def landmarkBody (E : Ext α) (yt : List (Pose2D α)) (C : Mat α) (i : Nat)
    (m : MarkerWithCovariance α) : MarkerWithCovariance α :=
  let p := yt.getD (i + 1) E.oob
  { marker :=
      { ids := (resize m.marker.ids 1 0).set 0 (toInt32 (i + 1)),
        ids_confidence := (resize m.marker.ids_confidence 1 0).set 0 1.0,
        pose := { position := ⟨p.x, p.y, 0⟩,
                  orientation := createQuaternionMsgFromYaw E p.theta } },
    covariance := packCovariance m.covariance C (i + 1) }

/-- The loop of `publish` (lines 180-201) from index `i` on. -/
def landmarkLoop (E : Ext α) (yt : List (Pose2D α)) (C : Mat α) :
    Nat → List (MarkerWithCovariance α) → List (MarkerWithCovariance α)
  | _, [] => []
  | i, m :: ms => landmarkBody E yt C i m :: landmarkLoop E yt C (i + 1) ms

/-- The condition of the `assert` of line 151. -/
def stateInSync (n : SLAMNode α) : Prop :=
  n.yt_.length > 0 ∧ n.C_Yt_.rows.val = 3 * n.yt_.length ∧
    n.C_Yt_.cols.val = 3 * n.yt_.length

instance (n : SLAMNode α) : Decidable (stateInSync n) := by
  unfold stateInSync; infer_instance

/-- The `try` block of `publish` (lines 139-149): the transforms broadcast and
the errors reported.  `B` is what the frame-resolution query applies. -/
def correctionTransform (E : Ext α) (B : Option (Transform α)) (n : SLAMNode α) (t : Nat) :
    List (StampedTransform α) × List RosError :=
  let y0 := n.yt_.getD 0 E.oob
  let base_to_map := Transform.ofYaw E y0.theta y0.x y0.y
  let map_to_base : StampedPose α :=
    { data := base_to_map.inverse, stamp := t, frame_id := n.frame_id_base_ }
  match transformPose B n.frame_id_odom_ map_to_base with
  | some odom_to_map =>
      ([{ data := odom_to_map.data.inverse, stamp := odom_to_map.stamp,
          frame_id := n.frame_id_map_, child_frame_id := n.frame_id_odom_ }], [])
  | none => ([], [RosError.subtractFailed])

/-- The robot pose record of lines 154-171. -/
def poseRecord (E : Ext α) (n : SLAMNode α) (t : Nat) : PoseWithCovarianceStamped α :=
  let y0 := n.yt_.getD 0 E.oob
  { header := { n.xt_.header with stamp := t, seq := (n.xt_.header.seq + 1) % 4294967296 },
    pose := { position := ⟨y0.x, y0.y, 0⟩,
              orientation := createQuaternionMsgFromYaw E y0.theta },
    covariance := packCovariance n.xt_.covariance n.C_Yt_ 0 }

/-- The landmark-array record of lines 176-201. -/
def landmarkRecord (E : Ext α) (n : SLAMNode α) (t : Nat) : MarkerWithCovarianceArray α :=
  { header := { n.mt_.header with stamp := t, seq := (n.mt_.header.seq + 1) % 4294967296 },
    markers := landmarkLoop E n.yt_ n.C_Yt_ 0
      (resize n.mt_.markers (n.yt_.length - 1) MarkerWithCovariance.zero) }

/-- The method `SLAMNode::publish`.  `B` is the transform the frame-resolution
query `transformPose` applies, `none` when the query throws. -/
def publish (E : Ext α) (B : Option (Transform α)) (n : SLAMNode α) : PublishOutcome α :=
  match n.time_last_update with
  | none =>
      { xt_ := n.xt_, mt_ := n.mt_, broadcast := [], errors := [], pub_xt := [],
        pub_mt := [], aborted := false }
  | some t =>
      let tfOut := correctionTransform E B n t
      if stateInSync n then
        let xt := poseRecord E n t
        let mt := landmarkRecord E n t
        { xt_ := xt, mt_ := mt, broadcast := tfOut.1, errors := tfOut.2, pub_xt := [xt],
          pub_mt := [mt], aborted := false }
      else
        { xt_ := n.xt_, mt_ := n.mt_, broadcast := tfOut.1, errors := tfOut.2, pub_xt := [],
          pub_mt := [], aborted := true }

/-- The node after the constructor: the records `xt_` and `mt_` are
value-initialised, with `frame_id_map_` in their headers and `seq = 0`. -/
def SLAMNode.init (xzplane : Bool) (map odom base : String) (ut : Command α)
    (zt : MeasurementMarker α) (yt : List (Pose2D α)) (C : Mat α) : SLAMNode α :=
  { xzplane_ := xzplane, frame_id_map_ := map, frame_id_odom_ := odom, frame_id_base_ := base,
    ut_ := ut, zt_ := zt, yt_ := yt, C_Yt_ := C, time_last_update := none,
    xt_ := { header := { seq := 0, stamp := 0, frame_id := map },
             pose := { position := ⟨0, 0, 0⟩, orientation := ⟨0, 0, 0, 0⟩ },
             covariance := fun _ => 0 },
    mt_ := { header := { seq := 0, stamp := 0, frame_id := map }, markers := [] } }

/-- What happens to the node between two lines of the main loop. -/
inductive Event (α : Type) where
  /-- a command message arrives -/
  | cmd (c : Twist α)
  /-- a detection batch arrives, `look` being the answer of `lookupTransform` -/
  | marker (look : Option (SensorTransform α)) (msg : MarkerDetection α)
  /-- the estimator runs `cycle ()` and leaves a new state -/
  | cycle (yt : List (Pose2D α)) (C : Mat α) (t : Option Nat)
  /-- the node runs `publish ()`, `B` being what `transformPose` applies -/
  | publish (B : Option (Transform α))

/-- One event of a run; `none` when the `assert` of `publish` fails. -/
def SLAMNode.step (E : Ext α) (n : SLAMNode α) : Event α → Option (SLAMNode α)
  | .cmd c => some { n with ut_ := callbackCmd n.ut_ c }
  | .marker look msg => some { n with zt_ := callbackMarker E n.xzplane_ look n.zt_ msg }
  | .cycle yt C t => some { n with yt_ := yt, C_Yt_ := C, time_last_update := t }
  | .publish B =>
      let out := publish E B n
      if out.aborted then none else some { n with xt_ := out.xt_, mt_ := out.mt_ }

/-- A run of the node: the events in order, stopping at a failed `assert`. -/
def SLAMNode.run (E : Ext α) (n : SLAMNode α) : List (Event α) → Option (SLAMNode α)
  | [] => some n
  | e :: es => (n.step E e).bind fun n1 => SLAMNode.run E n1 es

/-- The index of the 6x6 layout that row or column `r` of a 3x3 block goes to:
`p(0) = 0`, `p(1) = 1`, `p(2) = 5`. -/
def layoutIndex (r : Fin 3) : Fin 6 :=
  match r with
  | 0 => 0
  | 1 => 1
  | 2 => 5

/-- The covariance of record `i` of a publication: the pose record for `i = 0`,
landmark `i` of the landmark array otherwise. -/
def recordCovariance (xt : PoseWithCovarianceStamped α) (mt : MarkerWithCovarianceArray α)
    (i : Nat) : Option (Cov α) :=
  match i with
  | 0 => some xt.covariance
  | k + 1 => (mt.markers.get? k).map fun m => m.covariance

/-- The basis of a planar transform is a rotation: `c^2 + s^2 = 1`. -/
def Transform.IsRigid (t : Transform α) : Prop :=
  t.c ^ 2 + t.s ^ 2 = 1

instance (t : Transform α) : Decidable t.IsRigid := by
  unfold Transform.IsRigid; infer_instance

/-- The index of the row-major 6x6 layout that entry `(r, c)` of a 3x3 block
goes to: `6 p(r) + p(c)`. -/
def layoutSlot (r c : Fin 3) : Fin 36 :=
  ⟨6 * (layoutIndex r).val + (layoutIndex c).val, by
    have h1 := (layoutIndex r).isLt
    have h2 := (layoutIndex c).isLt
    omega⟩

/-- Every entry of a 6x6 layout outside `{0, 1, 5} x {0, 1, 5}` is zero. -/
def ZeroOutside (cov : Cov α) : Prop :=
  ∀ j : Fin 36, (∀ r c : Fin 3, j ≠ layoutSlot r c) → cov j = 0

/-- The records `xt_` and `mt_` of a node carry zeros outside the planar
indices. -/
def RecordsClean (n : SLAMNode α) : Prop :=
  ZeroOutside n.xt_.covariance ∧ ∀ m ∈ n.mt_.markers, ZeroOutside m.covariance

end Publisher


/-! ## A sample library on the rationals -/

/-- A library on `ℚ` for evaluating the definitions on concrete inputs: `pi` is
the value of `M_PI` as a `double`, `sqrt` is one Newton step from `1` (exact at `1`),
`atan2` is exact on the positive x-axis, `M_PI / 4` on the diagonal of the first
quadrant and a first-order value elsewhere,
`sin` and `cos` are Taylor polynomials (exact at `0`), `getRPY` is exact at the
identity rotation and first-order elsewhere. -/
def sampleExt : Ext ℚ :=
  { pi := 3.141592653589793
    sqrt := fun q => (q + 1) / 2
    atan2 := fun y x =>
      if y = 0 ∧ 0 < x then 0
      else if y = x ∧ 0 < x then 3.141592653589793 / 4
      else if x = 0 then 0 else y / x
    sin := fun t => t - t ^ 3 / 6
    cos := fun t => 1 - t ^ 2 / 2
    getRPY := fun q => (2 * q.x, 2 * q.y, 2 * q.z)
    oob := { x := 0, y := 0, theta := 0 } }

/-- A detection at `(1, 1, 0)` with the identity orientation. -/
def sampleDetection : MarkerMsg ℚ :=
  { ids := [7], ids_confidence := [1],
    pose := { position := ⟨1, 1, 0⟩, orientation := ⟨0, 0, 0, 1⟩ } }

/-- A buffered measurement set as a batch with `fov_horizontal = 1` leaves it. -/
def sampleSet : MeasurementMarker ℚ :=
  { pose2d := ⟨0.225, 0, 0⟩, range_min := 0, range_max := 10, range_max_id := 5,
    angle_min := -1 / 2, angle_max := 1 / 2, stamp := some 1, markers := [] }

/-- A batch looking straight ahead, with `fov_horizontal = 2` and no detection. -/
def sampleBatchA : MarkerDetection ℚ :=
  { frame_id := "camera", stamp := 2, distance_min := 0, distance_max := 10,
    distance_max_id := 5, view_direction := ⟨0, 0, 0, 1⟩, fov_horizontal := 2, markers := [] }

/-- A batch whose viewing direction is `(0, 0, 1, 0)`, with one detection. -/
def sampleBatchB : MarkerDetection ℚ :=
  { frame_id := "camera", stamp := 3, distance_min := 0, distance_max := 10,
    distance_max_id := 5, view_direction := ⟨0, 0, 1, 0⟩, fov_horizontal := 2,
    markers := [sampleDetection] }

/-- A joint covariance of size 6x6 whose block `(0, 0)` is
`diag (0.1, 0.2, 0.3)`. -/
def sampleCov : Mat ℚ :=
  { rows := 6, cols := 6,
    entry := fun r c =>
      if r = c then (if r = 0 then 0.1 else if r = 1 then 0.2 else if r = 2 then 0.3 else 1)
      else 0 }

/-- A node after the constructor and one estimator cycle that left the robot
pose `(1, 2, 0)`, one landmark and the covariance `sampleCov` at time `5`. -/
def sampleNode : SLAMNode ℚ :=
  { SLAMNode.init false "map" "odom" "base_link" ⟨0, 0⟩ sampleSet [] sampleCov with
    yt_ := [⟨1, 2, 0⟩, ⟨3, 4, 1 / 2⟩], C_Yt_ := sampleCov, time_last_update := some 5 }

/-! ## Lemmas on the measurement adapter -/

section AdapterLemmas

variable {α : Type} [LinearOrderedField α] [FloorRing α]

theorem markerLoopBody_eq (E : Ext α) (xz : Bool) (zt : MeasurementMarker α)
    (m : MarkerMsg α) :
    markerLoopBody E xz zt m =
      if withinBounds zt (toMeasurement E xz m) then zt.push_back (toMeasurement E xz m)
      else zt := by
  unfold markerLoopBody withinBounds
  by_cases h : (toMeasurement E xz m).length < zt.range_min ∨
      (toMeasurement E xz m).length > zt.range_max ∨
      (toMeasurement E xz m).angle < zt.angle_min ∨
      (toMeasurement E xz m).angle > zt.angle_max
  · have h2 : ¬ (zt.range_min ≤ (toMeasurement E xz m).length ∧
        (toMeasurement E xz m).length ≤ zt.range_max ∧
        zt.angle_min ≤ (toMeasurement E xz m).angle ∧
        (toMeasurement E xz m).angle ≤ zt.angle_max) := by
      rintro ⟨h1, h2, h3, h4⟩
      rcases h with h | h | h | h
      · exact absurd h1 (not_le.mpr h)
      · exact absurd h2 (not_le.mpr h)
      · exact absurd h3 (not_le.mpr h)
      · exact absurd h4 (not_le.mpr h)
    simp only [h, h2, if_true, if_false]
  · have h2 : zt.range_min ≤ (toMeasurement E xz m).length ∧
        (toMeasurement E xz m).length ≤ zt.range_max ∧
        zt.angle_min ≤ (toMeasurement E xz m).angle ∧
        (toMeasurement E xz m).angle ≤ zt.angle_max := by
      refine ⟨?_, ?_, ?_, ?_⟩
      · exact not_lt.mp fun hh => h (Or.inl hh)
      · exact not_lt.mp fun hh => h (Or.inr (Or.inl hh))
      · exact not_lt.mp fun hh => h (Or.inr (Or.inr (Or.inl hh)))
      · exact not_lt.mp fun hh => h (Or.inr (Or.inr (Or.inr hh)))
    simp only [h, h2, if_true, if_false, and_self]

/-- The bounds that decide the gate do not depend on the measurements stored. -/
theorem withinBounds_congr (zt zt1 : MeasurementMarker α) (z : Marker α)
    (h1 : zt1.range_min = zt.range_min) (h2 : zt1.range_max = zt.range_max)
    (h3 : zt1.angle_min = zt.angle_min) (h4 : zt1.angle_max = zt.angle_max) :
    withinBounds zt1 z ↔ withinBounds zt z := by
  unfold withinBounds; rw [h1, h2, h3, h4]

/-- The loop of `callbackMarker` appends the gated measurements, in order. -/
theorem foldl_markerLoopBody (E : Ext α) (xz : Bool) (ms : List (MarkerMsg α)) :
    ∀ zt : MeasurementMarker α,
      ms.foldl (markerLoopBody E xz) zt =
        { zt with markers := (zt.markers ++ List.map (toMeasurement E xz)
            (ms.filter fun m => decide (withinBounds zt (toMeasurement E xz m)))) } := by
  induction ms with
  | nil => intro zt; simp
  | cons m ms ih =>
    intro zt
    rw [List.foldl_cons, ih, markerLoopBody_eq]
    by_cases h : withinBounds zt (toMeasurement E xz m)
    · simp only [h, if_true, MeasurementMarker.push_back, List.filter_cons, decide_True,
        List.map_cons, List.append_assoc, List.singleton_append]
      rfl
    · simp [h]

end AdapterLemmas


/-! ## The measurement adapter -/

section AdapterTheorems

variable {α : Type} [LinearOrderedField α] [FloorRing α]

theorem straightAhead_iff (q : Quaternion α) :
    straightAhead q = true ↔ q = ⟨0, 0, 0, 1⟩ := by
  cases q
  simp [straightAhead, and_assoc]

theorem markerHeader_bounds (E : Ext α) (xz : Bool) (look : Option (SensorTransform α))
    (zt : MeasurementMarker α) (msg : MarkerDetection α) :
    (markerHeader E xz look zt msg).range_min = msg.distance_min ∧
    (markerHeader E xz look zt msg).range_max = msg.distance_max ∧
    (markerHeader E xz look zt msg).range_max_id = msg.distance_max_id ∧
    (markerHeader E xz look zt msg).stamp = some msg.stamp ∧
    (markerHeader E xz look zt msg).pose2d = sensorPose E xz look ∧
    (markerHeader E xz look zt msg).markers = [] ∧
    (markerHeader E xz look zt msg).angle_min =
      (if straightAhead msg.view_direction then -msg.fov_horizontal / 2 else zt.angle_min) ∧
    (markerHeader E xz look zt msg).angle_max =
      (if straightAhead msg.view_direction then msg.fov_horizontal / 2 else zt.angle_max) := by
  unfold markerHeader
  by_cases h : straightAhead msg.view_direction = true <;> simp [h]

/-- The result of `callbackMarker` in closed form. -/
theorem callbackMarker_eq (E : Ext α) (xz : Bool) (look : Option (SensorTransform α))
    (zt : MeasurementMarker α) (msg : MarkerDetection α) :
    callbackMarker E xz look zt msg =
      { markerHeader E xz look zt msg with
        markers := List.map (toMeasurement E xz) (msg.markers.filter fun m =>
          decide (withinBounds (markerHeader E xz look zt msg) (toMeasurement E xz m))) } := by
  unfold callbackMarker
  rw [foldl_markerLoopBody]
  simp [(markerHeader_bounds E xz look zt msg).2.2.2.2.2.1]

/-- The header of `callbackMarker` reads the previous set only in its angle
bounds. -/
theorem markerHeader_prev (E : Ext α) (xz : Bool) (look : Option (SensorTransform α))
    (zt zt1 : MeasurementMarker α) (msg : MarkerDetection α)
    (h : straightAhead msg.view_direction = false →
      zt1.angle_min = zt.angle_min ∧ zt1.angle_max = zt.angle_max) :
    markerHeader E xz look zt1 msg = markerHeader E xz look zt msg := by
  unfold markerHeader
  by_cases hs : straightAhead msg.view_direction = true
  · simp [hs]
  · have hf : straightAhead msg.view_direction = false := by simpa using hs
    obtain ⟨h1, h2⟩ := h hf
    simp [hf, h1, h2]

/-- C1 (measurement gate): one iteration of the loop of `callbackMarker`, for a
detection with robot-frame coordinates `(x, y)`, `length = sqrt (x^2 + y^2)` and
`angle = atan2 (y, x)`, appends the measurement of the detection to the set if
and only if `range_min ≤ length ≤ range_max` and `angle_min ≤ angle ≤ angle_max`
(all four bounds inclusive), and leaves the set as it is otherwise; the bounds
themselves are not changed by the iteration, and the measurement of a detection
of a batch is in the set after `callbackMarker` if and only if it is within the
bounds the set then carries. -/
theorem gate_accepts_iff_within_bounds (E : Ext α) (xz : Bool) (zt : MeasurementMarker α)
    (m : MarkerMsg α) :
    let p := detectionPose E xz m
    let length := E.sqrt (p.x ^ 2 + p.y ^ 2)
    let angle := E.atan2 p.y p.x
    ((markerLoopBody E xz zt m).markers = zt.markers ++ [toMeasurement E xz m] ↔
      (zt.range_min ≤ length ∧ length ≤ zt.range_max ∧
        zt.angle_min ≤ angle ∧ angle ≤ zt.angle_max)) ∧
    ((markerLoopBody E xz zt m).markers = zt.markers ↔
      ¬ (zt.range_min ≤ length ∧ length ≤ zt.range_max ∧
        zt.angle_min ≤ angle ∧ angle ≤ zt.angle_max)) ∧
    (markerLoopBody E xz zt m).range_min = zt.range_min ∧
    (markerLoopBody E xz zt m).range_max = zt.range_max ∧
    (markerLoopBody E xz zt m).angle_min = zt.angle_min ∧
    (markerLoopBody E xz zt m).angle_max = zt.angle_max ∧
    (∀ (look : Option (SensorTransform α)) (zt0 : MeasurementMarker α)
        (msg : MarkerDetection α), m ∈ msg.markers →
      (toMeasurement E xz m ∈ (callbackMarker E xz look zt0 msg).markers ↔
        ((callbackMarker E xz look zt0 msg).range_min ≤ length ∧
          length ≤ (callbackMarker E xz look zt0 msg).range_max ∧
          (callbackMarker E xz look zt0 msg).angle_min ≤ angle ∧
          angle ≤ (callbackMarker E xz look zt0 msg).angle_max))) := by
  intro p length angle
  have hl : (toMeasurement E xz m).length = length := by
    simp only [toMeasurement, length, p, sq]
  have ha : (toMeasurement E xz m).angle = angle := rfl
  have hw : withinBounds zt (toMeasurement E xz m) ↔
      (zt.range_min ≤ length ∧ length ≤ zt.range_max ∧
        zt.angle_min ≤ angle ∧ angle ≤ zt.angle_max) := by
    unfold withinBounds; rw [hl, ha]
  have hall : ∀ (look : Option (SensorTransform α)) (zt0 : MeasurementMarker α)
      (msg : MarkerDetection α), m ∈ msg.markers →
      (toMeasurement E xz m ∈ (callbackMarker E xz look zt0 msg).markers ↔
        ((callbackMarker E xz look zt0 msg).range_min ≤ length ∧
          length ≤ (callbackMarker E xz look zt0 msg).range_max ∧
          (callbackMarker E xz look zt0 msg).angle_min ≤ angle ∧
          angle ≤ (callbackMarker E xz look zt0 msg).angle_max)) := by
    intro look zt0 msg hm
    rw [← hl, ← ha, callbackMarker_eq]
    simp only [List.mem_map, List.mem_filter, decide_eq_true_eq]
    constructor
    · rintro ⟨m1, ⟨_, hw1⟩, he⟩
      rw [he] at hw1
      exact hw1
    · intro hw1
      exact ⟨m, ⟨hm, hw1⟩, rfl⟩
  rw [markerLoopBody_eq, ← hw]
  by_cases h : withinBounds zt (toMeasurement E xz m)
  · simp only [h, if_true, MeasurementMarker.push_back, true_iff, not_true_eq_false,
      iff_false, true_and]
    exact ⟨by simp, hall⟩
  · simp only [h, if_false, false_iff, not_false_eq_true, iff_true, true_and]
    exact ⟨by simp, hall⟩

theorem angle_difference_range (pi a b : α) (hpi : 0 < pi) :
    -pi < angle_difference pi a b ∧ angle_difference pi a b ≤ pi := by
  unfold angle_difference
  have h2 : (0 : α) < 2 * pi := by linarith
  have hle := Int.le_ceil ((a - b - pi) / (2 * pi))
  have hlt := Int.ceil_lt_add_one ((a - b - pi) / (2 * pi))
  rw [div_le_iff₀ h2] at hle
  rw [← sub_lt_iff_lt_add, lt_div_iff₀ h2] at hlt
  constructor <;> nlinarith

/-- Among the angles that differ from `a - b` by a multiple of `2 pi`,
`angle_difference` has the least absolute value. -/
theorem angle_difference_minimal (pi a b : α) (hpi : 0 < pi) (k : ℤ) :
    |angle_difference pi a b| ≤ |(a - b) - 2 * pi * (k : α)| := by
  obtain ⟨h1, h2⟩ := angle_difference_range pi a b hpi
  have hd : (a - b) - 2 * pi * (k : α) =
      angle_difference pi a b + 2 * pi * ((⌈(a - b - pi) / (2 * pi)⌉ - k : ℤ) : α) := by
    unfold angle_difference
    push_cast
    ring
  rw [hd]
  generalize ⌈(a - b - pi) / (2 * pi)⌉ - k = j
  generalize angle_difference pi a b = r at h1 h2
  have habs : |r| ≤ pi := abs_le.mpr ⟨h1.le, h2⟩
  rcases lt_trichotomy j 0 with hj | hj | hj
  · have hj1 : (j : α) ≤ -1 := by exact_mod_cast (by omega : j ≤ -1)
    have hle : r + 2 * pi * (j : α) ≤ -pi := by nlinarith
    rw [abs_of_nonpos (by linarith : r + 2 * pi * (j : α) ≤ 0)]
    linarith
  · subst hj
    simp
  · have hj1 : (1 : α) ≤ (j : α) := by exact_mod_cast (by omega : 1 ≤ j)
    have hle : pi ≤ r + 2 * pi * (j : α) := by nlinarith
    rw [abs_of_nonneg (by linarith : 0 ≤ r + 2 * pi * (j : α))]
    linarith

/-- C2 (frame conversion): with `M_PI > 0`, the `xzplane_` branch of
`callbackMarker` maps a detection with position `(vx, vy, vz)` and orientation
`(roll, pitch, yaw)` to `(vx, vy, yaw)` when the flag is false and to
`(vz, -vx, angle_difference (pi, pitch))` when it is true, where
`angle_difference (a, b)` lies in `(-pi, pi]`, differs from `a - b` by a
multiple of `2 pi` and is the least such angle in absolute value; the pose of a detection message is this branch applied to the
position and the `getRPY` of its orientation; `(1, 2, 0)` with yaw `0.3` gives
`(1, 2, 0.3)` under the false flag and `(1, 5, 2)` with pitch `0` gives
`(2, -1, pi)` under the true flag. -/
theorem frame_conversion (pi : α) (hpi : 0 < pi) (v : Point α) (pitch yaw : α) :
    toRobotFrame pi false v pitch yaw = ⟨v.x, v.y, yaw⟩ ∧
    toRobotFrame pi true v pitch yaw = ⟨v.z, -v.x, angle_difference pi pi pitch⟩ ∧
    (∀ a b : α, -pi < angle_difference pi a b ∧ angle_difference pi a b ≤ pi ∧
      (∃ k : ℤ, angle_difference pi a b = (a - b) - 2 * pi * (k : α)) ∧
      ∀ k : ℤ, |angle_difference pi a b| ≤ |(a - b) - 2 * pi * (k : α)|) ∧
    (∀ (E : Ext α) (xz : Bool) (m : MarkerMsg α), detectionPose E xz m =
      toRobotFrame E.pi xz m.pose.position (E.getRPY m.pose.orientation).2.1
        (E.getRPY m.pose.orientation).2.2) ∧
    toRobotFrame pi false ⟨1, 2, 0⟩ pitch 0.3 = ⟨1, 2, 0.3⟩ ∧
    toRobotFrame pi true ⟨1, 5, 2⟩ 0 yaw = ⟨2, -1, pi⟩ := by
  refine ⟨rfl, rfl, ?_, fun _ _ _ => rfl, rfl, ?_⟩
  · intro a b
    exact ⟨(angle_difference_range pi a b hpi).1, (angle_difference_range pi a b hpi).2,
      ⟨_, rfl⟩, angle_difference_minimal pi a b hpi⟩
  · simp [toRobotFrame, angle_difference]

/-- The frame conversion at `M_PI` as a rational, position `(1, 5, 2)`. -/
theorem frame_conversion_witness :
    (0 : ℚ) < 3.141592653589793 ∧
    toRobotFrame (3.141592653589793 : ℚ) true ⟨1, 5, 2⟩ 0 (3 / 10) =
      ⟨2, -1, 3.141592653589793⟩ :=
  ⟨by norm_num, (frame_conversion (3.141592653589793 : ℚ) (by norm_num) ⟨1, 5, 2⟩ 0 (3 / 10)).2.2.2.2.2⟩

/-- C4 (measurement set contents): after `callbackMarker` the buffered sequence
is exactly the measurements of the detections of the batch that pass the gate
with the bounds in force, in input order, a sublist of the measurements of all
detections and so never longer than the batch, with nothing of the previous
set; a measurement carries the ids and confidences of its detection,
`length = sqrt (x^2 + y^2)`, `angle = atan2 (y, x)`, `orientation = theta` and
`pose = (x, y, theta)` for the converted pose `(x, y, theta)`. -/
theorem measurement_set_contents (E : Ext α) (xz : Bool) (look : Option (SensorTransform α))
    (zt : MeasurementMarker α) (msg : MarkerDetection α) :
    let zt1 := callbackMarker E xz look zt msg
    zt1.markers = List.map (toMeasurement E xz) (msg.markers.filter fun m =>
      decide (zt1.range_min ≤ (toMeasurement E xz m).length ∧
        (toMeasurement E xz m).length ≤ zt1.range_max ∧
        zt1.angle_min ≤ (toMeasurement E xz m).angle ∧
        (toMeasurement E xz m).angle ≤ zt1.angle_max)) ∧
    List.Sublist zt1.markers (List.map (toMeasurement E xz) msg.markers) ∧
    zt1.markers.length ≤ msg.markers.length ∧
    (∀ m : MarkerMsg α,
      (toMeasurement E xz m).ids = m.ids ∧
      (toMeasurement E xz m).ids_confidence = m.ids_confidence ∧
      (toMeasurement E xz m).length =
        E.sqrt ((detectionPose E xz m).x ^ 2 + (detectionPose E xz m).y ^ 2) ∧
      (toMeasurement E xz m).angle = E.atan2 (detectionPose E xz m).y (detectionPose E xz m).x ∧
      (toMeasurement E xz m).orientation = (detectionPose E xz m).theta ∧
      (toMeasurement E xz m).pose = detectionPose E xz m) := by
  intro zt1
  have hm : zt1.markers = List.map (toMeasurement E xz) (msg.markers.filter fun m =>
      decide (zt1.range_min ≤ (toMeasurement E xz m).length ∧
        (toMeasurement E xz m).length ≤ zt1.range_max ∧
        zt1.angle_min ≤ (toMeasurement E xz m).angle ∧
        (toMeasurement E xz m).angle ≤ zt1.angle_max)) := by
    simp only [zt1, callbackMarker_eq]
    rfl
  refine ⟨hm, ?_, ?_, ?_⟩
  · rw [hm]
    exact List.Sublist.map _ (List.filter_sublist _)
  · rw [hm, List.length_map]
    exact List.length_filter_le _ _
  · intro m
    refine ⟨rfl, rfl, ?_, rfl, rfl, rfl⟩
    simp only [toMeasurement, sq]

/-- The result of `callbackMarker` on a batch whose viewing direction is not
`(0, 0, 0, 1)`. -/
theorem callbackMarker_not_straight (E : Ext α) (xz : Bool)
    (look : Option (SensorTransform α)) (zt : MeasurementMarker α) (msg : MarkerDetection α)
    (hv : msg.view_direction ≠ ⟨0, 0, 0, 1⟩) :
    (callbackMarker E xz look zt msg).angle_min = zt.angle_min ∧
    (callbackMarker E xz look zt msg).angle_max = zt.angle_max ∧
    (callbackMarker E xz look zt msg).range_min = msg.distance_min ∧
    (callbackMarker E xz look zt msg).range_max = msg.distance_max ∧
    (callbackMarker E xz look zt msg).range_max_id = msg.distance_max_id ∧
    (callbackMarker E xz look zt msg).stamp = some msg.stamp ∧
    (callbackMarker E xz look zt msg).markers =
      List.map (toMeasurement E xz) (msg.markers.filter fun m =>
        decide (msg.distance_min ≤ (toMeasurement E xz m).length ∧
          (toMeasurement E xz m).length ≤ msg.distance_max ∧
          zt.angle_min ≤ (toMeasurement E xz m).angle ∧
          (toMeasurement E xz m).angle ≤ zt.angle_max)) := by
  have hs : straightAhead msg.view_direction = false := by
    cases h : straightAhead msg.view_direction
    · rfl
    · exact absurd ((straightAhead_iff _).mp h) hv
  have hb := markerHeader_bounds E xz look zt msg
  simp only [hs, Bool.false_eq_true, if_false] at hb
  obtain ⟨h1, h2, h3, h4, _, _, h7, h8⟩ := hb
  refine ⟨?_, ?_, ?_, ?_, ?_, ?_, ?_⟩
  · simp only [callbackMarker_eq, h7]
  · simp only [callbackMarker_eq, h8]
  · simp only [callbackMarker_eq, h1]
  · simp only [callbackMarker_eq, h2]
  · simp only [callbackMarker_eq, h3]
  · simp only [callbackMarker_eq, h4]
  · simp only [callbackMarker_eq, withinBounds, h1, h2, h7, h8]

/-- C9 (malformed viewing direction): for a batch whose viewing direction is not
exactly `(0, 0, 0, 1)` the error is reported, `angle_min` and `angle_max` keep
the values they had before the callback, while `range_min`, `range_max`,
`range_max_id` and the stamp are overwritten with those of the batch, and the
buffered sequence is the measurements of all detections of the batch that pass
the gate made of the range bounds of the batch and the retained angle bounds,
so every detection of the batch that passes this gate is kept. -/
theorem malformed_view_direction (E : Ext α) (xz : Bool) (look : Option (SensorTransform α))
    (zt : MeasurementMarker α) (msg : MarkerDetection α)
    (hv : msg.view_direction ≠ ⟨0, 0, 0, 1⟩) :
    let zt1 := callbackMarker E xz look zt msg
    RosError.viewDirection ∈ markerErrors look msg ∧
    zt1.angle_min = zt.angle_min ∧ zt1.angle_max = zt.angle_max ∧
    zt1.range_min = msg.distance_min ∧ zt1.range_max = msg.distance_max ∧
    zt1.range_max_id = msg.distance_max_id ∧ zt1.stamp = some msg.stamp ∧
    zt1.markers = List.map (toMeasurement E xz) (msg.markers.filter fun m =>
      decide (msg.distance_min ≤ (toMeasurement E xz m).length ∧
        (toMeasurement E xz m).length ≤ msg.distance_max ∧
        zt.angle_min ≤ (toMeasurement E xz m).angle ∧
        (toMeasurement E xz m).angle ≤ zt.angle_max)) ∧
    (∀ m ∈ msg.markers,
      msg.distance_min ≤ (toMeasurement E xz m).length →
      (toMeasurement E xz m).length ≤ msg.distance_max →
      zt.angle_min ≤ (toMeasurement E xz m).angle →
      (toMeasurement E xz m).angle ≤ zt.angle_max →
      toMeasurement E xz m ∈ zt1.markers) := by
  intro zt1
  have hs : straightAhead msg.view_direction = false := by
    cases h : straightAhead msg.view_direction
    · rfl
    · exact absurd ((straightAhead_iff _).mp h) hv
  have hc := callbackMarker_not_straight E xz look zt msg hv
  refine ⟨by simp [markerErrors, hs], hc.1, hc.2.1, hc.2.2.1, hc.2.2.2.1, hc.2.2.2.2.1,
    hc.2.2.2.2.2.1, hc.2.2.2.2.2.2, ?_⟩
  intro m hm h1 h2 h3 h4
  simp only [zt1]
  rw [hc.2.2.2.2.2.2]
  exact List.mem_map.mpr ⟨m, List.mem_filter.mpr ⟨hm, by simp [h1, h2, h3, h4]⟩, rfl⟩

/-- The batch with viewing direction `(0, 0, 1, 0)` on the sample set. -/
theorem malformed_view_direction_witness :
    sampleBatchB.view_direction ≠ ⟨0, 0, 0, 1⟩ ∧
    (callbackMarker sampleExt false none sampleSet sampleBatchB).angle_max = sampleSet.angle_max :=
  ⟨by decide,
   (malformed_view_direction sampleExt false none sampleSet sampleBatchB (by decide)).2.2.1⟩


/-- C7 as stated fails: from the sample set (angle bounds `-1/2`, `1/2`), the
straight-ahead batch with `fov_horizontal = 2` followed by the batch with viewing
direction `(0, 0, 1, 0)` leaves `angle_max = 1` and keeps the detection at
bearing `M_PI / 4`, while the second batch alone leaves `angle_max = 1/2` and
drops that detection. -/
theorem last_write_wins_fails :
    (callbackMarker sampleExt false none
      (callbackMarker sampleExt false none sampleSet sampleBatchA) sampleBatchB).angle_max = 1 ∧
    (callbackMarker sampleExt false none sampleSet sampleBatchB).angle_max = 1 / 2 ∧
    (callbackMarker sampleExt false none
      (callbackMarker sampleExt false none sampleSet sampleBatchA) sampleBatchB).markers.length
        = 1 ∧
    (callbackMarker sampleExt false none sampleSet sampleBatchB).markers.length = 0 ∧
    callbackMarker sampleExt false none
      (callbackMarker sampleExt false none sampleSet sampleBatchA) sampleBatchB ≠
    callbackMarker sampleExt false none sampleSet sampleBatchB := by
  have hab : callbackMarker sampleExt false none
      (callbackMarker sampleExt false none sampleSet sampleBatchA) sampleBatchB =
      { pose2d := ⟨0.225, 0, 0⟩, range_min := 0, range_max := 10, range_max_id := 5,
        angle_min := -1, angle_max := 1, stamp := some 3,
        markers := [{ ids := [7], ids_confidence := [1], length := 3 / 2,
                      angle := 3.141592653589793 / 4, orientation := 0,
                      pose := ⟨1, 1, 0⟩ }] } := by
    norm_num [callbackMarker, markerHeader, markerLoopBody, toMeasurement, detectionPose,
      toRobotFrame, sampleExt, sampleSet, sampleBatchA, sampleBatchB, sampleDetection,
      straightAhead, sensorPose, MeasurementMarker.push_back]
  have hb : callbackMarker sampleExt false none sampleSet sampleBatchB =
      { pose2d := ⟨0.225, 0, 0⟩, range_min := 0, range_max := 10, range_max_id := 5,
        angle_min := -1 / 2, angle_max := 1 / 2, stamp := some 3, markers := [] } := by
    norm_num [callbackMarker, markerHeader, markerLoopBody, toMeasurement, detectionPose,
      toRobotFrame, sampleExt, sampleSet, sampleBatchB, sampleDetection,
      straightAhead, sensorPose, MeasurementMarker.push_back]
  rw [hab, hb]
  simp

/-- C7 (amended): two commands in a row leave `(v, w) = (b.linear.x,
b.angular.z)`, the same as the second alone.  Two batches `a`, `b` in a row
leave `range_min`, `range_max`, `range_max_id`, the stamp and the sensor pose
determined by `b`; when the viewing direction of `b` is exactly `(0, 0, 0, 1)`
the whole set equals the one `b` alone gives from the same start; otherwise
`angle_min` and `angle_max` are those in force before `b` (the ones `a` left) and
the sequence is the detections of `b` gated with the range bounds of `b` and
those angle bounds. -/
theorem last_write_wins (E : Ext α) (xz : Bool) (lookA lookB : Option (SensorTransform α))
    (zt : MeasurementMarker α) (a b : MarkerDetection α) (ut : Command α)
    (cmdA cmdB : Twist α) :
    let za := callbackMarker E xz lookA zt a
    let zab := callbackMarker E xz lookB za b
    callbackCmd (callbackCmd ut cmdA) cmdB = callbackCmd ut cmdB ∧
    callbackCmd (callbackCmd ut cmdA) cmdB = ⟨cmdB.linear_x, cmdB.angular_z⟩ ∧
    zab.range_min = b.distance_min ∧ zab.range_max = b.distance_max ∧
    zab.range_max_id = b.distance_max_id ∧ zab.stamp = some b.stamp ∧
    zab.pose2d = sensorPose E xz lookB ∧
    (b.view_direction = ⟨0, 0, 0, 1⟩ → zab = callbackMarker E xz lookB zt b) ∧
    (b.view_direction ≠ ⟨0, 0, 0, 1⟩ →
      zab.angle_min = za.angle_min ∧ zab.angle_max = za.angle_max ∧
      zab.markers = List.map (toMeasurement E xz) (b.markers.filter fun m =>
        decide (b.distance_min ≤ (toMeasurement E xz m).length ∧
          (toMeasurement E xz m).length ≤ b.distance_max ∧
          za.angle_min ≤ (toMeasurement E xz m).angle ∧
          (toMeasurement E xz m).angle ≤ za.angle_max))) := by
  intro za zab
  have hb := markerHeader_bounds E xz lookB za b
  obtain ⟨h1, h2, h3, h4, h5, _, _, _⟩ := hb
  refine ⟨rfl, rfl, ?_, ?_, ?_, ?_, ?_, ?_, ?_⟩
  · simp only [zab, callbackMarker_eq, h1]
  · simp only [zab, callbackMarker_eq, h2]
  · simp only [zab, callbackMarker_eq, h3]
  · simp only [zab, callbackMarker_eq, h4]
  · simp only [zab, callbackMarker_eq, h5]
  · intro hv
    have hs : straightAhead b.view_direction = true := (straightAhead_iff _).mpr hv
    have hh : markerHeader E xz lookB za b = markerHeader E xz lookB zt b :=
      markerHeader_prev E xz lookB zt za b (fun hf => by rw [hs] at hf; cases hf)
    simp only [zab, callbackMarker_eq, hh]
  · intro hv
    have h := callbackMarker_not_straight E xz lookB za b hv
    exact ⟨h.1, h.2.1, h.2.2.2.2.2.2⟩

/-- The two sample batches in the other order: the second looks straight ahead. -/
theorem last_write_wins_witness :
    sampleBatchA.view_direction = ⟨0, 0, 0, 1⟩ ∧
    callbackMarker sampleExt false none
      (callbackMarker sampleExt false none sampleSet sampleBatchB) sampleBatchA =
    callbackMarker sampleExt false none sampleSet sampleBatchA :=
  ⟨by decide,
   (last_write_wins sampleExt false none none sampleSet sampleBatchB sampleBatchA ⟨0, 0⟩
      ⟨1, 0⟩ ⟨2, 1⟩).2.2.2.2.2.2.2.1 (by decide)⟩

end AdapterTheorems


/-! ## Lemmas on the publisher -/

section PublisherLemmas

variable {α : Type} [LinearOrderedField α] [FloorRing α]

theorem packCovariance_apply (cov : Cov α) (C : Mat α) (k : Nat) (j : Fin 36) :
    packCovariance cov C k j =
      if j = 6*5 + 5 then C.entry (3 * k + 2) (3 * k + 2)
      else if j = 6*5 + 1 then C.entry (3 * k + 2) (3 * k + 1)
      else if j = 6*5 + 0 then C.entry (3 * k + 2) (3 * k + 0)
      else if j = 6*1 + 5 then C.entry (3 * k + 1) (3 * k + 2)
      else if j = 6*1 + 1 then C.entry (3 * k + 1) (3 * k + 1)
      else if j = 6*1 + 0 then C.entry (3 * k + 1) (3 * k + 0)
      else if j = 6*0 + 5 then C.entry (3 * k + 0) (3 * k + 2)
      else if j = 6*0 + 1 then C.entry (3 * k + 0) (3 * k + 1)
      else if j = 6*0 + 0 then C.entry (3 * k + 0) (3 * k + 0)
      else cov j := by
  simp only [packCovariance, Function.update_apply]

/-- The block of `C` lands on the planar indices. -/
theorem packCovariance_block (cov : Cov α) (C : Mat α) (k : Nat) (r c : Fin 3) :
    packCovariance cov C k (layoutSlot r c) = C.entry (3 * k + r.val) (3 * k + c.val) := by
  have e00 : layoutSlot 0 0 = 0 := by decide
  have e01 : layoutSlot 0 1 = 1 := by decide
  have e02 : layoutSlot 0 2 = 5 := by decide
  have e10 : layoutSlot 1 0 = 6 := by decide
  have e11 : layoutSlot 1 1 = 7 := by decide
  have e12 : layoutSlot 1 2 = 11 := by decide
  have e20 : layoutSlot 2 0 = 30 := by decide
  have e21 : layoutSlot 2 1 = 31 := by decide
  have e22 : layoutSlot 2 2 = 35 := by decide
  rw [packCovariance_apply]
  match r, c with
  | 0, 0 => rw [e00]; simp
  | 0, 1 => rw [e01]; simp
  | 0, 2 => rw [e02]; simp
  | 1, 0 => rw [e10]; simp
  | 1, 1 => rw [e11]; simp
  | 1, 2 => rw [e12]; simp
  | 2, 0 => rw [e20]; simp
  | 2, 1 => rw [e21]; simp
  | 2, 2 => rw [e22]; simp

/-- The other entries are not written. -/
theorem packCovariance_other (cov : Cov α) (C : Mat α) (k : Nat) (j : Fin 36)
    (hj : ∀ r c : Fin 3, j ≠ layoutSlot r c) : packCovariance cov C k j = cov j := by
  rw [packCovariance_apply]
  have h00 := hj 0 0
  have h01 := hj 0 1
  have h02 := hj 0 2
  have h10 := hj 1 0
  have h11 := hj 1 1
  have h12 := hj 1 2
  have h20 := hj 2 0
  have h21 := hj 2 1
  have h22 := hj 2 2
  have e00 : layoutSlot 0 0 = 6*0 + 0 := by decide
  have e01 : layoutSlot 0 1 = 6*0 + 1 := by decide
  have e02 : layoutSlot 0 2 = 6*0 + 5 := by decide
  have e10 : layoutSlot 1 0 = 6*1 + 0 := by decide
  have e11 : layoutSlot 1 1 = 6*1 + 1 := by decide
  have e12 : layoutSlot 1 2 = 6*1 + 5 := by decide
  have e20 : layoutSlot 2 0 = 6*5 + 0 := by decide
  have e21 : layoutSlot 2 1 = 6*5 + 1 := by decide
  have e22 : layoutSlot 2 2 = 6*5 + 5 := by decide
  rw [e00] at h00; rw [e01] at h01; rw [e02] at h02
  rw [e10] at h10; rw [e11] at h11; rw [e12] at h12
  rw [e20] at h20; rw [e21] at h21; rw [e22] at h22
  simp only [h00, h01, h02, h10, h11, h12, h20, h21, h22, if_false]

theorem packCovariance_zeroOutside (cov : Cov α) (C : Mat α) (k : Nat)
    (h : ZeroOutside cov) : ZeroOutside (packCovariance cov C k) := by
  intro j hj
  rw [packCovariance_other cov C k j hj]
  exact h j hj


theorem resize_length {β : Type} (l : List β) (n : Nat) (d : β) :
    (resize l n d).length = n := by
  simp only [resize, List.length_append, List.length_take, List.length_replicate]
  omega

theorem mem_resize {β : Type} (l : List β) (n : Nat) (d : β) (x : β)
    (h : x ∈ resize l n d) : x ∈ l ∨ x = d := by
  simp only [resize, List.mem_append] at h
  rcases h with h | h
  · exact Or.inl (List.mem_of_mem_take h)
  · exact Or.inr (List.eq_of_mem_replicate h)

/-- Resizing to one element and writing element `0` leaves exactly that element. -/
theorem resize_one_set {β : Type} (l : List β) (d v : β) :
    (resize l 1 d).set 0 v = [v] := by
  cases l <;> simp [resize]

theorem landmarkLoop_length (E : Ext α) (yt : List (Pose2D α)) (C : Mat α)
    (ms : List (MarkerWithCovariance α)) :
    ∀ i, (landmarkLoop E yt C i ms).length = ms.length := by
  induction ms with
  | nil => intro i; rfl
  | cons m ms ih => intro i; simp [landmarkLoop, ih]

theorem landmarkLoop_get? (E : Ext α) (yt : List (Pose2D α)) (C : Mat α)
    (ms : List (MarkerWithCovariance α)) :
    ∀ i j, (landmarkLoop E yt C i ms).get? j =
      (ms.get? j).map (landmarkBody E yt C (i + j)) := by
  induction ms with
  | nil => intro i j; simp [landmarkLoop]
  | cons m ms ih =>
    intro i j
    cases j with
    | zero => simp [landmarkLoop]
    | succ j =>
      simp only [landmarkLoop, List.get?_cons_succ, ih]
      have e : i + 1 + j = i + (j + 1) := by omega
      rw [e]

theorem mem_landmarkLoop (E : Ext α) (yt : List (Pose2D α)) (C : Mat α)
    (ms : List (MarkerWithCovariance α)) :
    ∀ i x, x ∈ landmarkLoop E yt C i ms →
      ∃ k m, m ∈ ms ∧ x = landmarkBody E yt C k m := by
  induction ms with
  | nil => intro i x h; simp [landmarkLoop] at h
  | cons m ms ih =>
    intro i x h
    simp only [landmarkLoop, List.mem_cons] at h
    rcases h with h | h
    · exact ⟨i, m, List.mem_cons_self _ _, h⟩
    · obtain ⟨k, m1, hm, hx⟩ := ih (i + 1) x h
      exact ⟨k, m1, List.mem_cons_of_mem _ hm, hx⟩

/-- The outcome of `publish` on a state that passes the `assert`. -/
theorem publish_inSync (E : Ext α) (B : Option (Transform α)) (n : SLAMNode α) (t : Nat)
    (ht : n.time_last_update = some t) (hs : stateInSync n) :
    publish E B n =
      { xt_ := poseRecord E n t, mt_ := landmarkRecord E n t,
        broadcast := (correctionTransform E B n t).1,
        errors := (correctionTransform E B n t).2,
        pub_xt := [poseRecord E n t], pub_mt := [landmarkRecord E n t], aborted := false } := by
  simp only [publish, ht, hs, if_true]

/-- The outcome of `publish` on a state that fails the `assert`. -/
theorem publish_outOfSync (E : Ext α) (B : Option (Transform α)) (n : SLAMNode α) (t : Nat)
    (ht : n.time_last_update = some t) (hs : ¬ stateInSync n) :
    publish E B n =
      { xt_ := n.xt_, mt_ := n.mt_,
        broadcast := (correctionTransform E B n t).1,
        errors := (correctionTransform E B n t).2,
        pub_xt := [], pub_mt := [], aborted := true } := by
  simp only [publish, ht, hs, if_false]

/-- The records stay clean through `publish`. -/
theorem publish_clean (E : Ext α) (B : Option (Transform α)) (n : SLAMNode α)
    (h : RecordsClean n) :
    ZeroOutside (publish E B n).xt_.covariance ∧
      ∀ m ∈ (publish E B n).mt_.markers, ZeroOutside m.covariance := by
  cases ht : n.time_last_update with
  | none => simpa only [publish, ht] using h
  | some t =>
    by_cases hs : stateInSync n
    · rw [publish_inSync E B n t ht hs]
      refine ⟨packCovariance_zeroOutside _ _ _ h.1, ?_⟩
      intro m hm
      obtain ⟨k, m0, hm0, rfl⟩ := mem_landmarkLoop E _ _ _ _ _ hm
      apply packCovariance_zeroOutside
      rcases mem_resize _ _ _ _ hm0 with h1 | h1
      · exact h.2 m0 h1
      · rw [h1]; intro j _; rfl
    · rw [publish_outOfSync E B n t ht hs]
      exact h

theorem step_clean (E : Ext α) (n n1 : SLAMNode α) (e : Event α)
    (h : RecordsClean n) (hstep : n.step E e = some n1) : RecordsClean n1 := by
  cases e with
  | cmd c => simp only [SLAMNode.step, Option.some.injEq] at hstep; subst hstep; exact h
  | marker look msg =>
    simp only [SLAMNode.step, Option.some.injEq] at hstep; subst hstep; exact h
  | cycle yt C t => simp only [SLAMNode.step, Option.some.injEq] at hstep; subst hstep; exact h
  | publish B =>
    simp only [SLAMNode.step] at hstep
    split at hstep
    · cases hstep
    · simp only [Option.some.injEq] at hstep
      subst hstep
      exact publish_clean E B n h

theorem run_clean (E : Ext α) (evs : List (Event α)) :
    ∀ n n1 : SLAMNode α, RecordsClean n → SLAMNode.run E n evs = some n1 →
      RecordsClean n1 := by
  induction evs with
  | nil =>
    intro n n1 h hrun
    simp only [SLAMNode.run, Option.some.injEq] at hrun
    subst hrun; exact h
  | cons e es ih =>
    intro n n1 h hrun
    simp only [SLAMNode.run] at hrun
    cases hstep : n.step E e with
    | none => rw [hstep] at hrun; cases hrun
    | some n2 =>
      rw [hstep] at hrun
      exact ih n2 n1 (step_clean E n n2 e h hstep) hrun

theorem init_clean (xz : Bool) (map odom base : String) (ut : Command α)
    (zt : MeasurementMarker α) (yt : List (Pose2D α)) (C : Mat α) :
    RecordsClean (SLAMNode.init xz map odom base ut zt yt C) := by
  refine ⟨fun j _ => rfl, ?_⟩
  intro m hm
  simp [SLAMNode.init] at hm

end PublisherLemmas


/-! ## The publisher -/

section PublisherTheorems

variable {α : Type} [LinearOrderedField α] [FloorRing α]

theorem getD_of_get? {β : Type} (l : List β) (k : Nat) (d y : β) (h : l.get? k = some y) :
    l.getD k d = y := by
  simp only [List.getD, h, Option.getD_some]

theorem toInt32_small (k : Nat) (h : k < 2147483648) : toInt32 k = (k : Int) := by
  unfold toInt32
  omega

/-- Landmark `k` (counted from `1`) of the landmark-array record. -/
theorem landmarkRecord_get? (E : Ext α) (n : SLAMNode α) (t : Nat) (hs : stateInSync n)
    (k : Nat) (hk : k + 1 < n.yt_.length) :
    ∃ m0 y, (resize n.mt_.markers (n.yt_.length - 1) MarkerWithCovariance.zero).get? k = some m0 ∧
      n.yt_.get? (k + 1) = some y ∧
      (landmarkRecord E n t).markers.get? k = some
        { marker := { ids := [((k + 1 : Nat) : Int)], ids_confidence := [1],
                      pose := { position := ⟨y.x, y.y, 0⟩,
                                orientation := createQuaternionMsgFromYaw E y.theta } },
          covariance := packCovariance m0.covariance n.C_Yt_ (k + 1) } := by
  have hlen : k < (resize n.mt_.markers (n.yt_.length - 1) MarkerWithCovariance.zero).length := by
    rw [resize_length]; omega
  obtain ⟨m0, hm0⟩ : ∃ m0, (resize n.mt_.markers (n.yt_.length - 1)
      MarkerWithCovariance.zero).get? k = some m0 := ⟨_, List.get?_eq_get hlen⟩
  obtain ⟨y, hy⟩ : ∃ y, n.yt_.get? (k + 1) = some y := ⟨_, List.get?_eq_get hk⟩
  refine ⟨m0, y, hm0, hy, ?_⟩
  have hrows := n.C_Yt_.rows.isLt
  have hr := hs.2.1
  have hid : toInt32 (k + 1) = ((k + 1 : Nat) : Int) := toInt32_small _ (by omega)
  simp only [landmarkRecord, landmarkLoop_get?, hm0, Option.map_some', landmarkBody,
    resize_one_set, zero_add, getD_of_get? _ _ _ _ hy, hid]
  norm_num

/-- C10 (landmark array): on a state that passes the check, with `|yt| = N + 1`
and a prior estimator update, `publish` hands over one pose record with
position `(yt[0].x, yt[0].y, 0)` and the orientation of yaw `yt[0].theta`, and
one landmark-array record with exactly `N` entries whose `k`-th entry
(`1 ≤ k ≤ N`) has ids `[k]`, confidences `[1.0]`, position
`(yt[k].x, yt[k].y, 0)` and the orientation of yaw `yt[k].theta`, whatever the
records held before. -/
theorem landmark_array (E : Ext α) (B : Option (Transform α)) (n : SLAMNode α) (t : Nat)
    (ht : n.time_last_update = some t) (hs : stateInSync n) :
    ∃ xt mt, (publish E B n).pub_xt = [xt] ∧ (publish E B n).pub_mt = [mt] ∧
      mt.markers.length + 1 = n.yt_.length ∧
      (∃ y0, n.yt_.get? 0 = some y0 ∧ xt.pose.position = ⟨y0.x, y0.y, 0⟩ ∧
        xt.pose.orientation = createQuaternionMsgFromYaw E y0.theta) ∧
      (∀ k, 1 ≤ k → k < n.yt_.length →
        ∃ m y, mt.markers.get? (k - 1) = some m ∧ n.yt_.get? k = some y ∧
          m.marker.ids = [(k : Int)] ∧ m.marker.ids_confidence = [1.0] ∧
          m.marker.pose.position = ⟨y.x, y.y, 0⟩ ∧
          m.marker.pose.orientation = createQuaternionMsgFromYaw E y.theta) := by
  rw [publish_inSync E B n t ht hs]
  refine ⟨poseRecord E n t, landmarkRecord E n t, rfl, rfl, ?_, ?_, ?_⟩
  · have h0 := hs.1
    simp only [landmarkRecord, landmarkLoop_length, resize_length]
    omega
  · obtain ⟨y0, hy0⟩ : ∃ y0, n.yt_.get? 0 = some y0 := ⟨_, List.get?_eq_get hs.1⟩
    refine ⟨y0, hy0, ?_, ?_⟩ <;> simp only [poseRecord, getD_of_get? _ _ _ _ hy0]
  · intro k hk1 hk
    obtain ⟨j, rfl⟩ : ∃ j, k = j + 1 := ⟨k - 1, by omega⟩
    obtain ⟨m0, y, _, hy, hm⟩ := landmarkRecord_get? E n t hs j hk
    simp only [Nat.add_sub_cancel]
    exact ⟨_, y, hm, hy, rfl, by norm_num, rfl, rfl⟩

/-- The sample node, whose state holds the robot and one landmark. -/
theorem landmark_array_witness :
    sampleNode.time_last_update = some 5 ∧ stateInSync sampleNode ∧
    ∃ xt mt, (publish sampleExt none sampleNode).pub_xt = [xt] ∧
      (publish sampleExt none sampleNode).pub_mt = [mt] ∧
      mt.markers.length + 1 = sampleNode.yt_.length :=
  ⟨rfl, by decide,
   (landmark_array sampleExt none sampleNode 5 rfl (by decide)).imp fun _ h =>
     h.imp fun _ h2 => ⟨h2.1, h2.2.1, h2.2.2.1⟩⟩

/-- C5 (state desynchronization): after an estimator update, when `|yt| = 0` or
`C_yt` is not `3|yt| x 3|yt|` the `assert` of `publish` fails, no pose record and
no landmark-array record is handed over and the records are left as they were
(no covariance is extracted); when `|yt| > 0` and `C_yt` is `3|yt| x 3|yt|` the
check passes and exactly one pose record and one landmark-array record are
handed over. -/
theorem desync_rejected (E : Ext α) (B : Option (Transform α)) (n : SLAMNode α) (t : Nat)
    (ht : n.time_last_update = some t) :
    ((n.yt_.length = 0 ∨ n.C_Yt_.rows.val ≠ 3 * n.yt_.length ∨
        n.C_Yt_.cols.val ≠ 3 * n.yt_.length) →
      (publish E B n).aborted = true ∧ (publish E B n).pub_xt = [] ∧
      (publish E B n).pub_mt = [] ∧ (publish E B n).xt_ = n.xt_ ∧
      (publish E B n).mt_ = n.mt_) ∧
    ((n.yt_.length > 0 ∧ n.C_Yt_.rows.val = 3 * n.yt_.length ∧
        n.C_Yt_.cols.val = 3 * n.yt_.length) →
      (publish E B n).aborted = false ∧ (publish E B n).pub_xt.length = 1 ∧
      (publish E B n).pub_mt.length = 1) := by
  constructor
  · intro h
    have hs : ¬ stateInSync n := by
      rintro ⟨h1, h2, h3⟩
      rcases h with h | h | h
      · omega
      · exact h h2
      · exact h h3
    rw [publish_outOfSync E B n t ht hs]
    exact ⟨rfl, rfl, rfl, rfl, rfl⟩
  · intro h
    rw [publish_inSync E B n t ht h]
    exact ⟨rfl, rfl, rfl⟩

/-- The sample node, whose state passes the check. -/
theorem desync_rejected_witness :
    sampleNode.time_last_update = some 5 ∧
    (sampleNode.yt_.length > 0 ∧ sampleNode.C_Yt_.rows.val = 3 * sampleNode.yt_.length ∧
      sampleNode.C_Yt_.cols.val = 3 * sampleNode.yt_.length) ∧
    (publish sampleExt none sampleNode).aborted = false :=
  ⟨rfl, by decide, ((desync_rejected sampleExt none sampleNode 5 rfl).2 (by decide)).1⟩


/-- C6 (transform-resolution failure): on a state that passes the check, when
the frame-resolution query fails no transform is broadcast, the failure is
reported, `publish` does not abort, and the pose record and the landmark-array
record handed over are the ones handed over had the query succeeded (one of
each); when the query succeeds exactly one transform is broadcast. -/
theorem transform_failure_recovered (E : Ext α) (n : SLAMNode α) (t : Nat)
    (ht : n.time_last_update = some t) (hs : stateInSync n) (B : Transform α) :
    (publish E none n).broadcast = [] ∧
    (publish E none n).errors = [RosError.subtractFailed] ∧
    (publish E none n).aborted = false ∧
    (publish E none n).pub_xt = (publish E (some B) n).pub_xt ∧
    (publish E none n).pub_mt = (publish E (some B) n).pub_mt ∧
    (publish E none n).pub_xt.length = 1 ∧
    (publish E none n).pub_mt.length = 1 ∧
    (publish E none n).xt_ = (publish E (some B) n).xt_ ∧
    (publish E none n).mt_ = (publish E (some B) n).mt_ ∧
    (publish E (some B) n).broadcast.length = 1 ∧
    (publish E (some B) n).errors = [] ∧
    (publish E (some B) n).aborted = false := by
  rw [publish_inSync E none n t ht hs, publish_inSync E (some B) n t ht hs]
  simp [correctionTransform, transformPose]

/-- The sample node with a failing and with a succeeding query. -/
theorem transform_failure_recovered_witness :
    sampleNode.time_last_update = some 5 ∧ stateInSync sampleNode ∧
    (publish sampleExt none sampleNode).broadcast = [] ∧
    (publish sampleExt (some ⟨3 / 5, 4 / 5, 1, 1⟩) sampleNode).broadcast.length = 1 :=
  ⟨rfl, by decide,
   (transform_failure_recovered sampleExt sampleNode 5 rfl (by decide) ⟨3 / 5, 4 / 5, 1, 1⟩).1,
   (transform_failure_recovered sampleExt sampleNode 5 rfl (by decide)
      ⟨3 / 5, 4 / 5, 1, 1⟩).2.2.2.2.2.2.2.2.2.1⟩

/-- C8 (correction transform): let `P` be the transform with the rotation of
yaw `yt[0].theta` and origin `(yt[0].x, yt[0].y)` and `B` the transform the
frame-resolution query applies, both with a rotation as basis.  After an
estimator update `publish` broadcasts exactly one transform; it is the inverse
of `B * inverse P`, composed with `B` it gives `P`, it carries the last update
time of the estimator and the frame pair `(frame_id_map_, frame_id_odom_)`. -/
theorem correction_transform (E : Ext α) (n : SLAMNode α) (t : Nat) (y0 : Pose2D α)
    (B : Transform α) (ht : n.time_last_update = some t) (hy : n.yt_.get? 0 = some y0)
    (hP : (Transform.ofYaw E y0.theta y0.x y0.y).IsRigid) (hB : B.IsRigid) :
    ∃ m, (publish E (some B) n).broadcast = [m] ∧
      m.data = (B.mul (Transform.ofYaw E y0.theta y0.x y0.y).inverse).inverse ∧
      m.data.mul B = Transform.ofYaw E y0.theta y0.x y0.y ∧
      m.stamp = t ∧ m.frame_id = n.frame_id_map_ ∧ m.child_frame_id = n.frame_id_odom_ := by
  have hb : (publish E (some B) n).broadcast = (correctionTransform E (some B) n t).1 := by
    by_cases hs : stateInSync n
    · rw [publish_inSync E _ n t ht hs]
    · rw [publish_outOfSync E _ n t ht hs]
  rw [hb]
  simp only [correctionTransform, transformPose, Option.map_some', getD_of_get? _ _ _ _ hy]
  refine ⟨_, rfl, rfl, ?_, rfl, rfl, rfl⟩
  unfold Transform.IsRigid at hP hB
  simp only [Transform.ofYaw] at hP
  simp only [Transform.mul, Transform.inverse, Transform.ofYaw]
  congr 1
  · linear_combination (E.cos y0.theta) * hB
  · linear_combination (E.sin y0.theta) * hB
  · linear_combination y0.x * (B.c ^ 2 + B.s ^ 2) * hP + y0.x * hB
  · linear_combination y0.y * (B.c ^ 2 + B.s ^ 2) * hP + y0.y * hB

/-- The sample node (robot yaw `0`) and the query transform with basis
`(3/5, 4/5)` and origin `(1, 1)`. -/
theorem correction_transform_witness :
    sampleNode.time_last_update = some 5 ∧ sampleNode.yt_.get? 0 = some ⟨1, 2, 0⟩ ∧
    (Transform.ofYaw sampleExt 0 1 2).IsRigid ∧ (⟨3 / 5, 4 / 5, 1, 1⟩ : Transform ℚ).IsRigid ∧
    ∃ m, (publish sampleExt (some ⟨3 / 5, 4 / 5, 1, 1⟩) sampleNode).broadcast = [m] ∧
      m.data.mul ⟨3 / 5, 4 / 5, 1, 1⟩ = Transform.ofYaw sampleExt 0 1 2 ∧ m.stamp = 5 :=
  ⟨rfl, rfl, by norm_num [Transform.IsRigid, Transform.ofYaw, sampleExt],
   by norm_num [Transform.IsRigid],
   (correction_transform sampleExt sampleNode 5 ⟨1, 2, 0⟩ ⟨3 / 5, 4 / 5, 1, 1⟩ rfl rfl
      (by norm_num [Transform.IsRigid, Transform.ofYaw, sampleExt])
      (by norm_num [Transform.IsRigid])).imp fun _ h => ⟨h.1, h.2.2.1, h.2.2.2.1⟩⟩

/-- C3 (covariance packing): in a run that starts from the node as the
constructor leaves it, at every `publish` on a state with an estimator update
that passes the check, for every record `i < |yt|` (`0` the pose record, `k` the
`k`-th landmark) the 6x6 covariance `out` of the record handed over satisfies
`out[6 p(r) + p(c)] = C_yt[3 i + r][3 i + c]` for `r, c` in `{0, 1, 2}`, and
every entry outside `{0, 1, 5} x {0, 1, 5}` is zero. -/
theorem covariance_packing (E : Ext α) (xz : Bool) (map odom base : String)
    (ut : Command α) (zt : MeasurementMarker α) (yt0 : List (Pose2D α)) (C0 : Mat α)
    (evs : List (Event α)) (n : SLAMNode α)
    (hrun : SLAMNode.run E (SLAMNode.init xz map odom base ut zt yt0 C0) evs = some n)
    (t : Nat) (ht : n.time_last_update = some t) (hs : stateInSync n)
    (B : Option (Transform α)) :
    ∃ xt mt, (publish E B n).pub_xt = [xt] ∧ (publish E B n).pub_mt = [mt] ∧
      ∀ i, i < n.yt_.length → ∃ cov, recordCovariance xt mt i = some cov ∧
        (∀ r c : Fin 3, (layoutSlot r c).val = 6 * (layoutIndex r).val + (layoutIndex c).val ∧
          cov (layoutSlot r c) = n.C_Yt_.entry (3 * i + r.val) (3 * i + c.val)) ∧
        (∀ j : Fin 36, (∀ r c : Fin 3, j ≠ layoutSlot r c) → cov j = 0) := by
  have hclean : RecordsClean n := run_clean E evs _ n (init_clean xz map odom base ut zt yt0 C0) hrun
  rw [publish_inSync E B n t ht hs]
  refine ⟨poseRecord E n t, landmarkRecord E n t, rfl, rfl, ?_⟩
  intro i hi
  cases i with
  | zero =>
    refine ⟨_, rfl, fun r c => ⟨rfl, packCovariance_block _ _ _ r c⟩, ?_⟩
    exact packCovariance_zeroOutside _ _ _ hclean.1
  | succ k =>
    obtain ⟨m0, y, hm0, _, hm⟩ := landmarkRecord_get? E n t hs k hi
    refine ⟨packCovariance m0.covariance n.C_Yt_ (k + 1), ?_,
      fun r c => ⟨rfl, packCovariance_block _ _ _ r c⟩, ?_⟩
    · simp only [recordCovariance, hm, Option.map_some']
    · apply packCovariance_zeroOutside
      rcases mem_resize _ _ _ _ (List.get?_mem hm0) with h1 | h1
      · exact hclean.2 m0 h1
      · rw [h1]; intro j _; rfl


/-- The run of one estimator cycle that gives the sample node: the covariance of
the pose record has `0.1`, `0.2`, `0.3` at `[0][0]`, `[1][1]`, `[5][5]` and zero
elsewhere. -/
theorem covariance_packing_witness :
    SLAMNode.run sampleExt
      (SLAMNode.init false "map" "odom" "base_link" ⟨0, 0⟩ sampleSet [] sampleCov)
      [Event.cycle [⟨1, 2, 0⟩, ⟨3, 4, 1 / 2⟩] sampleCov (some 5)] = some sampleNode ∧
    sampleNode.time_last_update = some 5 ∧ stateInSync sampleNode ∧
    ∃ xt mt, (publish sampleExt none sampleNode).pub_xt = [xt] ∧
      (publish sampleExt none sampleNode).pub_mt = [mt] ∧
      xt.covariance 0 = 0.1 ∧ xt.covariance 7 = 0.2 ∧ xt.covariance 35 = 0.3 ∧
      ∀ j : Fin 36, j ≠ 0 → j ≠ 7 → j ≠ 35 → xt.covariance j = 0 := by
  refine ⟨rfl, rfl, by decide, ?_⟩
  obtain ⟨xt, mt, hxt, hmt, h⟩ := covariance_packing sampleExt false "map" "odom" "base_link"
    ⟨0, 0⟩ sampleSet [] sampleCov [Event.cycle [⟨1, 2, 0⟩, ⟨3, 4, 1 / 2⟩] sampleCov (some 5)]
    sampleNode rfl 5 rfl (by decide) none
  obtain ⟨cov, hcov, hblock, hzero⟩ := h 0 (by decide)
  simp only [recordCovariance, Option.some.injEq] at hcov
  subst hcov
  have e00 : layoutSlot 0 0 = 0 := by decide
  have e11 : layoutSlot 1 1 = 7 := by decide
  have e22 : layoutSlot 2 2 = 35 := by decide
  refine ⟨xt, mt, hxt, hmt, ?_, ?_, ?_, ?_⟩
  · have h1 := (hblock 0 0).2
    rw [e00] at h1
    rw [h1]; norm_num [sampleNode, sampleCov]
  · have h1 := (hblock 1 1).2
    rw [e11] at h1
    rw [h1]; norm_num [sampleNode, sampleCov]
  · have h1 := (hblock 2 2).2
    rw [e22] at h1
    rw [h1]; norm_num [sampleNode, sampleCov]
  · intro j h0 h7 h35
    by_cases hj : ∃ r c : Fin 3, j = layoutSlot r c
    · obtain ⟨r, c, rfl⟩ := hj
      rw [(hblock r c).2]
      have hrc : r ≠ c := by
        rintro rfl
        fin_cases r
        · exact h0 e00
        · exact h7 e11
        · exact h35 e22
      have hv : r.val ≠ c.val := fun hh => hrc (Fin.ext hh)
      simp [sampleNode, sampleCov, hv]
    · exact hzero j (fun r c hh => hj ⟨r, c, hh⟩)

end PublisherTheorems

end TuwMarkerSlam
